import Mathlib

/-!
Shallow embedding of the feedscraper_langchain pipeline
(`apps/langchain_integration/services/scrapers/base.py`,
`apps/langchain_integration/services/scrapers/nfe_fazenda.py`,
`apps/langchain_integration/services/technical_note_processor.py`,
`apps/jobs/tasks.py`) together with proofs about the frozen claims.

Modelling conventions:
- Django model rows become Lean structures; the database table of
  `TechnicalNote` rows is a `List TechnicalNote` threaded through the
  scraping loop, and the `ProcessingLog` table is a `List LogEntry`.
- Machine/External effects (HTTP fetch, the LLM chain, MD5) are passed
  in as function parameters; fallible calls return `Except String _`
  where the Python code can raise.
- Wall-clock instants are rationals; `time.sleep` is idealised as an
  exact advance of the clock.
-/

namespace FeedScraper

/-- Lifecycle status of a `TechnicalNote`
(`models.py` `TechnicalNote.STATUS_CHOICES`). -/
inductive NoteStatus
  | pending
  | processing
  | processed
  | error
deriving DecidableEq, Repr, Inhabited

/-- One `TechnicalNote` row (`models.py:39-89`).  `hasSummary` records
whether the one-to-one `ProcessedSummary` row exists (`hasattr(note,
"summary")` in the service).  `publication_date` and
`local_file_path` are not referenced by any claim and are omitted. -/
structure TechnicalNote where
  id : Nat
  sourceId : Nat
  title : String
  originalUrl : String
  documentHash : String
  contentPreview : String
  status : NoteStatus
  hasSummary : Bool
  fileSize : Nat
deriving DecidableEq, Repr, Inhabited

/-- The persisted `TechnicalNote` table. -/
abbrev Store := List TechnicalNote

/-- Raw downloaded bytes. -/
abbrev ByteContent := List Nat

/-- One `ProcessingLog` row (`models.py:136-177`).  Note that in the
source the `technical_note` foreign key has no `null=True`, so a row
always references an owning note; the field is therefore a plain
`Nat` id here. -/
structure LogEntry where
  technicalNoteId : Nat
  operation : String
  level : String
  message : String
deriving DecidableEq, Repr, Inhabited

/-- `BaseFeedScraper._log_operation` (`base.py:150-182`): persists a
`ProcessingLog` row only when a technical note is given (`if
technical_note:`); with `None` it only writes to the application
logger, which is not part of the persisted state. -/
def logOperation (note : Option TechnicalNote)
    (operation level message : String) (logs : List LogEntry) : List LogEntry :=
  match note with
  | some n => logs ++ [{ technicalNoteId := n.id, operation := operation,
                         level := level, message := message }]
  | none => logs

/-- The statistics dict built by `scrape_new_items` (`base.py:268-274`). -/
structure ScrapeStats where
  totalFound : Nat
  newItems : Nat
  duplicatesSkipped : Nat
  errors : Nat
  processingTime : ℚ
deriving DecidableEq, Repr, Inhabited

/-- One candidate item extracted from the listing page
(`_extract_items_from_listing`): title and resolved URL.  The optional
publication date is not referenced by any claim. -/
structure ListingItem where
  title : String
  url : String
deriving DecidableEq, Repr, Inhabited

/-- Accumulated state of one `scrape_new_items` run: the
`TechnicalNote` table, the `ProcessingLog` table, and the statistics
dict. -/
structure ScrapeAcc where
  store : Store
  logs : List LogEntry
  stats : ScrapeStats
deriving DecidableEq, Repr, Inhabited

/-- `BaseFeedScraper._create_technical_note` (`base.py:184-218`)
specialised to the call in `scrape_new_items` (`base.py:309-317`):
status `pending`, `file_size=len(content)` and
`content_preview=preview[:1000]`.  The autogenerated primary key is
modelled as the current table size. -/
def createTechnicalNote (dsId : Nat) (item : ListingItem) (contentHash : String)
    (content : ByteContent) (preview : String) (store : Store) : TechnicalNote :=
  { id := store.length
    sourceId := dsId
    title := item.title
    originalUrl := item.url
    documentHash := contentHash
    contentPreview := String.mk (preview.toList.take 1000)
    status := NoteStatus.pending
    hasSummary := false
    fileSize := content.length }

/-- Body of the per-item loop of `scrape_new_items` (`base.py:290-341`).
`md5` abstracts `hashlib.md5(content).hexdigest()` and `fetch`
abstracts `_get_content_from_item` including any exception it raises.
The per-item `try/except` catches the fetch failure, increments
`errors` and calls `_log_operation` with `technical_note=None`. -/
def processItem (md5 : ByteContent → String)
    (fetch : ListingItem → Except String (ByteContent × String))
    (dsId : Nat) (acc : ScrapeAcc) (item : ListingItem) : ScrapeAcc :=
  if acc.store.any (fun n => n.sourceId == dsId && n.originalUrl == item.url) then
    { acc with stats := { acc.stats with
        duplicatesSkipped := acc.stats.duplicatesSkipped + 1 } }
  else
    match fetch item with
    | Except.error e =>
        { acc with
          stats := { acc.stats with errors := acc.stats.errors + 1 }
          logs := logOperation none "scraping" "error"
            ("Erro ao processar item: " ++ e) acc.logs }
    | Except.ok (content, preview) =>
        let contentHash := md5 content
        if acc.store.any (fun n => n.documentHash == contentHash) then
          { acc with stats := { acc.stats with
              duplicatesSkipped := acc.stats.duplicatesSkipped + 1 } }
        else
          let note := createTechnicalNote dsId item contentHash content preview acc.store
          { store := acc.store ++ [note]
            logs := logOperation (some note) "scraping" "info"
              ("Nova nota técnica coletada: " ++ String.mk (item.title.toList.take 50)
                ++ "...") acc.logs
            stats := { acc.stats with newItems := acc.stats.newItems + 1 } }

/-- The `for item_info in items` loop of `scrape_new_items`. -/
def scrapeLoop (md5 : ByteContent → String)
    (fetch : ListingItem → Except String (ByteContent × String))
    (dsId : Nat) : List ListingItem → ScrapeAcc → ScrapeAcc
  | [], acc => acc
  | item :: rest, acc =>
      scrapeLoop md5 fetch dsId rest (processItem md5 fetch dsId acc item)

/-- `BaseFeedScraper.scrape_new_items` (`base.py:255-353`).  `listing`
abstracts the fetch + parse + extraction of the listing page (the
concrete `_extract_items_from_listing` of `nfe_fazenda.py` catches its
own exceptions and returns `[]`, so only the listing request can
raise); on its failure the outer `except` re-raises to the caller.
`elapsed` is the measured wall-clock duration written into
`processing_time` at the end of the run. -/
def scrapeNewItems (md5 : ByteContent → String)
    (fetch : ListingItem → Except String (ByteContent × String))
    (dsId : Nat) (listing : Except String (List ListingItem)) (elapsed : ℚ)
    (store : Store) (logs : List LogEntry) : Except String ScrapeAcc :=
  match listing with
  | Except.error e => Except.error e
  | Except.ok items =>
      let acc0 : ScrapeAcc :=
        { store := store, logs := logs,
          stats := { totalFound := items.length, newItems := 0,
                     duplicatesSkipped := 0, errors := 0, processingTime := 0 } }
      let acc := scrapeLoop md5 fetch dsId items acc0
      Except.ok { acc with stats := { acc.stats with processingTime := elapsed } }

/-- Python whitespace as used by `str.strip()` and the `\s` regex
class on ASCII text: space, tab, newline, carriage return, vertical
tab and form feed. -/
def pyIsSpace (c : Char) : Bool :=
  c = ' ' || c = '\t' || c = '\n' || c = '\x0d' ||
  c = Char.ofNat 0x0b || c = Char.ofNat 0x0c

/-- Python `str.strip()` on a character list: drop whitespace from
both ends. -/
def pyStripList (l : List Char) : List Char :=
  ((l.dropWhile pyIsSpace).reverse.dropWhile pyIsSpace).reverse

/-- Python `str.strip()`. -/
def pyStrip (s : String) : String :=
  String.mk (pyStripList s.toList)

/-- The structured JSON payload parsed from the LLM answer
(`JsonOutputParser` output consumed by `process_technical_note`).
Only the fields read by the service are modelled. -/
structure SummaryData where
  summary : String
  keyPoints : List String
  changesIdentified : List String
  topics : List String
  confidenceScore : ℚ
deriving DecidableEq, Repr, Inhabited

/-- The keys of the result dict of `process_technical_note` /
`process` that the claims read: the `success` flag, the optional
`error` string and the optional `technical_note_id` tag.  (The
success branch also carries `summary_id`, `processing_time`,
`model_used` and `summary_preview`; no claim mentions them.) -/
structure ProcResult where
  success : Bool
  error : Option String
  technicalNoteId : Option String
deriving DecidableEq, Repr, Inhabited

/-- `TechnicalNoteSummarizerService.process_technical_note`
(`technical_note_processor.py:133-227`).  `llm` abstracts
`self.process({"content": content})`: `Except.ok` is the parsed JSON
on success and `Except.error msg` is the dict produced by
`_handle_error` (`services/base.py:48-58`), which carries `success:
False` and `error: msg` but no `technical_note_id`.  The function
returns the result dict, the updated note row, and whether the LLM
chain was invoked.

Control flow of the source: the already-processed guard returns
first; then the status is set to `processing` and saved; then the
content check `if not content or len(content.strip()) < 50` raises
`ValueError("Conteúdo insuficiente para processamento")`, which the
outer `except` catches, setting the status to `error` and returning
the exception message. -/
def processTechnicalNote (llm : String → Except String SummaryData)
    (note : TechnicalNote) : ProcResult × TechnicalNote × Bool :=
  if note.hasSummary then
    ({ success := false, error := some "Nota técnica já foi processada",
       technicalNoteId := some (toString note.id) }, note, false)
  else
    let noteProcessing := { note with status := NoteStatus.processing }
    let content := note.contentPreview
    if content = "" ∨ (pyStrip content).length < 50 then
      ({ success := false, error := some "Conteúdo insuficiente para processamento",
         technicalNoteId := some (toString note.id) },
       { noteProcessing with status := NoteStatus.error }, false)
    else
      match llm content with
      | Except.error msg =>
          ({ success := false, error := some msg, technicalNoteId := none },
           { noteProcessing with status := NoteStatus.error }, true)
      | Except.ok _ =>
          ({ success := true, error := none,
             technicalNoteId := some (toString note.id) },
           { noteProcessing with status := NoteStatus.processed, hasSummary := true },
           true)

/-- The statistics dict built by `process_batch`
(`technical_note_processor.py:240-247`); `processing_time` is not
referenced by any claim and is omitted. -/
structure BatchStats where
  total : Nat
  processed : Nat
  errors : Nat
  skipped : Nat
  results : List ProcResult
deriving DecidableEq, Repr, Inhabited

/-- The substring probed by `process_batch` to classify a failure as
a skip: `"já foi processada" in result.get("error", "")`. -/
def alreadyProcessedFragment : String := "já foi processada"

/-- Whether `pat` occurs as a contiguous run of `hay`. -/
def listInfix (pat : List Char) : List Char → Bool
  | [] => pat.isEmpty
  | c :: rest => pat.isPrefixOf (c :: rest) || listInfix pat rest

/-- Python substring containment `pat in hay`. -/
def containsSub (hay pat : String) : Bool :=
  listInfix pat.toList hay.toList

/-- Body of the `for technical_note in technical_notes` loop of
`process_batch` (`technical_note_processor.py:253-277`).  `runNote`
abstracts the call `self.process_technical_note(technical_note)`
including any exception escaping it (`Except.error`), which the
batch-level `except` turns into an error entry tagged with the
note's id. -/
def processBatchLoop (runNote : TechnicalNote → Except String ProcResult) :
    List TechnicalNote → BatchStats → BatchStats
  | [], acc => acc
  | note :: rest, acc =>
      let acc' :=
        match runNote note with
        | Except.ok r =>
            let withResult := { acc with results := acc.results ++ [r] }
            if r.success then
              { withResult with processed := withResult.processed + 1 }
            else if containsSub (r.error.getD "") alreadyProcessedFragment then
              { withResult with skipped := withResult.skipped + 1 }
            else
              { withResult with errors := withResult.errors + 1 }
        | Except.error e =>
            { acc with
              errors := acc.errors + 1
              results := acc.results ++
                [{ success := false, error := some e,
                   technicalNoteId := some (toString note.id) }] }
      processBatchLoop runNote rest acc'

/-- `TechnicalNoteSummarizerService.process_batch`
(`technical_note_processor.py:229-282`). -/
def processBatch (runNote : TechnicalNote → Except String ProcResult)
    (notes : List TechnicalNote) : BatchStats :=
  processBatchLoop runNote notes
    { total := notes.length, processed := 0, errors := 0, skipped := 0, results := [] }

/-- The result entry that `process_batch` appends for one document:
the returned dict when `process_technical_note` returns, or the
synthesised error dict when it raises. -/
def batchEntry (runNote : TechnicalNote → Except String ProcResult)
    (note : TechnicalNote) : ProcResult :=
  match runNote note with
  | Except.ok r => r
  | Except.error e =>
      { success := false, error := some e, technicalNoteId := some (toString note.id) }

/-- Whether one document contributes to the `processed` counter of
`process_batch`. -/
def countsProcessed (runNote : TechnicalNote → Except String ProcResult)
    (note : TechnicalNote) : Bool :=
  match runNote note with
  | Except.ok r => r.success
  | Except.error _ => false

/-- Whether one document contributes to the `skipped` counter of
`process_batch`. -/
def countsSkipped (runNote : TechnicalNote → Except String ProcResult)
    (note : TechnicalNote) : Bool :=
  match runNote note with
  | Except.ok r => !r.success && containsSub (r.error.getD "") alreadyProcessedFragment
  | Except.error _ => false

/-- Whether one document contributes to the `errors` counter of
`process_batch`. -/
def countsError (runNote : TechnicalNote → Except String ProcResult)
    (note : TechnicalNote) : Bool :=
  match runNote note with
  | Except.ok r => !r.success && !containsSub (r.error.getD "") alreadyProcessedFragment
  | Except.error _ => true

/-- The control characters removed by `_clean_extracted_text`
(`nfe_fazenda.py:320`): the regex class
`[\x00-\x08\x0B\x0C\x0E-\x1F\x7F-\x9F]`. -/
def isStrippedCtrl (c : Char) : Bool :=
  c.toNat ≤ 0x08 || c.toNat == 0x0b || c.toNat == 0x0c ||
  (0x0e ≤ c.toNat && c.toNat ≤ 0x1f) || (0x7f ≤ c.toNat && c.toNat ≤ 0x9f)

/-- Effect of `re.sub(r"\n\s*\n\s*\n+", "\n\n", text)` on one maximal
whitespace run: a greedy leftmost match starts at the first newline of
the run and, after backtracking, ends at its last newline, and exists
exactly when the run holds at least three newlines; the matched part
is replaced by two newlines, keeping the surrounding non-newline
whitespace. -/
def transformWsRun (run : List Char) : List Char :=
  if 3 ≤ run.count '\n' then
    run.takeWhile (· ≠ '\n') ++ '\n' :: '\n' ::
      (run.reverse.takeWhile (· ≠ '\n')).reverse
  else run

/-- Single pass applying `transformWsRun` to every maximal whitespace
run; the first argument accumulates the current run in reverse. -/
def collapseNewlinesAux : List Char → List Char → List Char
  | run, [] => transformWsRun run.reverse
  | run, c :: rest =>
      if pyIsSpace c then collapseNewlinesAux (c :: run) rest
      else transformWsRun run.reverse ++ c :: collapseNewlinesAux [] rest

/-- `re.sub(r"\n\s*\n\s*\n+", "\n\n", text)` (`nfe_fazenda.py:314`). -/
def collapseNewlines (l : List Char) : List Char :=
  collapseNewlinesAux [] l

/-- `re.sub(r" +", " ", text)` (`nfe_fazenda.py:317`): collapse runs
of space characters to a single space. -/
def collapseSpaces : List Char → List Char
  | [] => []
  | [c] => [c]
  | a :: b :: rest =>
      if a = ' ' ∧ b = ' ' then collapseSpaces (b :: rest)
      else a :: collapseSpaces (b :: rest)

/-- The marker appended by the extraction-level truncation
(`nfe_fazenda.py:324`). -/
def truncMarker : String := "... [texto truncado]"

/-- `NFEFazendaScraper._clean_extracted_text` (`nfe_fazenda.py:300-326`):
collapse excessive newlines, collapse repeated spaces, drop control
characters, truncate to 2000 characters appending the marker when
exceeded, and strip. -/
def cleanExtractedText (text : String) : String :=
  if text = "" then ""
  else
    let t1 := collapseNewlines text.toList
    let t2 := collapseSpaces t1
    let t3 := t2.filter (fun c => !isStrippedCtrl c)
    let t4 := if 2000 < t3.length then t3.take 2000 ++ truncMarker.toList else t3
    String.mk (pyStripList t4)

/-- The sleep performed by `BaseFeedScraper._rate_limit`
(`base.py:73-82`): with `last` the recorded `last_request_time` and
`now` the current clock, sleep `delay - (now - last)` when the elapsed
time is below the configured delay. -/
def rateLimitSleep (delay last now : ℚ) : ℚ :=
  if now - last < delay then delay - (now - last) else 0

/-- `BaseFeedScraper._rate_limit` with an idealised exact sleep:
returns the clock value when the function returns — which is the
moment `_make_request` issues the request — and the new
`last_request_time`, which the source sets to `time.time()` after the
sleep, i.e. to that same instant. -/
def rateLimit (delay last now : ℚ) : ℚ × ℚ :=
  let t := now + rateLimitSleep delay last now
  (t, t)

/-- Clock value at which `_make_request` issues its request when
called at time `now` with recorded `last_request_time` `last`
(`base.py:84-112`: `_rate_limit` runs first, then `session.get`). -/
def makeRequestStart (delay last now : ℚ) : ℚ :=
  (rateLimit delay last now).1

/-- Result dict of `scrape_nfe_fazenda_job` (`tasks.py:118-191`).
Timestamps are modelled as rational clock values; `duration_seconds`
and `data_source_id` are not referenced by any claim. -/
structure ScrapeJobResult where
  success : Bool
  stats : Option ScrapeStats
  error : Option String
  startTime : ℚ
  endTime : ℚ
deriving DecidableEq, Repr, Inhabited

/-- `scrape_nfe_fazenda_job` (`tasks.py:118-191`).  `isActive` is the
`is_active` flag of the (fetched or lazily created) `DataSource`;
`run` abstracts `scraper.scrape_new_items()` including the exception
it re-raises on a listing failure, which the job's `except` turns
into a `success: False` dict carrying the message. -/
def scrapeNfeFazendaJob (isActive : Bool) (run : Except String ScrapeStats)
    (t0 t1 : ℚ) : ScrapeJobResult :=
  if !isActive then
    { success := false, stats := none, error := some "Fonte de dados inativa",
      startTime := t0, endTime := t1 }
  else
    match run with
    | Except.ok stats =>
        { success := true, stats := some stats, error := none,
          startTime := t0, endTime := t1 }
    | Except.error e =>
        { success := false, stats := none, error := some e,
          startTime := t0, endTime := t1 }

/-- Result dict of `process_pending_technical_notes_job`
(`tasks.py:194-251`). -/
structure ProcessJobResult where
  success : Bool
  stats : Option BatchStats
  error : Option String
  startTime : ℚ
  endTime : ℚ
deriving DecidableEq, Repr, Inhabited

/-- `process_pending_technical_notes_job` (`tasks.py:194-251`).
`init` abstracts the fallible setup (service construction and the
pending query); `pending` is the fetched pending list; `runNote`
abstracts per-note processing inside `process_batch`. -/
def processPendingNotesJob (init : Except String Unit)
    (pending : List TechnicalNote)
    (runNote : TechnicalNote → Except String ProcResult)
    (t0 t1 : ℚ) : ProcessJobResult :=
  match init with
  | Except.error e =>
      { success := false, stats := none, error := some e,
        startTime := t0, endTime := t1 }
  | Except.ok _ =>
      if pending.isEmpty then
        { success := true,
          stats := some { total := 0, processed := 0, errors := 0, skipped := 0,
                          results := [] },
          error := none, startTime := t0, endTime := t1 }
      else
        { success := true, stats := some (processBatch runNote pending),
          error := none, startTime := t0, endTime := t1 }

/-- The effective `health_check_job` (`tasks.py:441-463`; the second
definition in the module shadows the first): runs the database and
cache checks — abstracted as `checks` — and returns a bare boolean,
`True` on success and `False` on any caught exception. -/
def healthCheckJob (checks : Except String Unit) : Bool :=
  match checks with
  | Except.ok _ => true
  | Except.error _ => false

/-- The `processing` slot of `pipeline_stats` in
`nfe_fazenda_full_pipeline_job`: still the initial `{}` when an
exception fired before it was assigned, the literal skip dict when
scraping reported failure, or the processing job's result dict. -/
inductive ProcessingSlot
  | empty
  | skipped (success : Bool) (error : String)
  | ran (r : ProcessJobResult)
deriving DecidableEq, Repr, Inhabited

/-- Result dict of `nfe_fazenda_full_pipeline_job`
(`tasks.py:275-334`), with the `pipeline_stats` payload flattened
into the `scraping` and `processing` fields (`scraping` is `none`
while still the initial `{}`). -/
structure PipelineJobResult where
  success : Bool
  error : Option String
  scraping : Option ScrapeJobResult
  processing : ProcessingSlot
  startTime : ℚ
  endTime : ℚ
deriving DecidableEq, Repr, Inhabited

/-- `nfe_fazenda_full_pipeline_job` (`tasks.py:275-334`).  The two
stage invocations are abstracted as `Except` values whose `error`
case stands for an exception escaping that stage (caught by the job's
outer `except`, which returns `success: False` with the message and
the `pipeline_stats` accumulated so far).  When the scraping stage
returns a dict with `success: False`, the processing stage is never
invoked and its slot is set to `{"success": False, "error": "Scraping
falhou"}`, yet the job still returns `success: True`. -/
def fullPipelineJob (scrapeRes : Except String ScrapeJobResult)
    (procRes : Except String ProcessJobResult) (t0 t1 : ℚ) : PipelineJobResult :=
  match scrapeRes with
  | Except.error e =>
      { success := false, error := some e, scraping := none,
        processing := ProcessingSlot.empty, startTime := t0, endTime := t1 }
  | Except.ok sr =>
      if sr.success then
        match procRes with
        | Except.error e =>
            { success := false, error := some e, scraping := some sr,
              processing := ProcessingSlot.empty, startTime := t0, endTime := t1 }
        | Except.ok pr =>
            { success := true, error := none, scraping := some sr,
              processing := ProcessingSlot.ran pr, startTime := t0, endTime := t1 }
      else
        { success := true, error := none, scraping := some sr,
          processing := ProcessingSlot.skipped false "Scraping falhou",
          startTime := t0, endTime := t1 }

/-! ### Claim C1 -/

/-- A pending note with no summary and an empty content preview. -/
def c1Note : TechnicalNote :=
  { id := 1, sourceId := 0, title := "NT", originalUrl := "u", documentHash := "h",
    contentPreview := "", status := NoteStatus.pending, hasSummary := false,
    fileSize := 0 }

/-- C1 counterexample: on a pending document with an empty preview,
`process_technical_note` does return the insufficient-content failure
without calling the LLM, but the document's status does NOT stay at
its pre-call value: the service first saves status `processing` and
the caught `ValueError` then saves status `error`. -/
theorem claim1_insufficient_content_counterexample :
    (processTechnicalNote (fun _ => Except.error "never invoked") c1Note).1.success
        = false ∧
    (processTechnicalNote (fun _ => Except.error "never invoked") c1Note).2.2
        = false ∧
    (processTechnicalNote (fun _ => Except.error "never invoked") c1Note).2.1.status
        ≠ c1Note.status := by
  decide

/-- C1 amended: for every document without an existing summary whose
preview is absent or shorter than 50 characters after stripping,
`process_technical_note` returns `success=false` with the
insufficient-content error and performs no LLM call, but the
document's status is first set to `processing` and then to `error`
(it does not keep its pre-call value). -/
theorem claim1_insufficient_content_amended
    (llm : String → Except String SummaryData) (note : TechnicalNote)
    (hsum : note.hasSummary = false)
    (hshort : note.contentPreview = "" ∨ (pyStrip note.contentPreview).length < 50) :
    (processTechnicalNote llm note).1.success = false ∧
    (processTechnicalNote llm note).1.error =
      some "Conteúdo insuficiente para processamento" ∧
    (processTechnicalNote llm note).2.2 = false ∧
    (processTechnicalNote llm note).2.1.status = NoteStatus.error := by
  simp only [processTechnicalNote, hsum, Bool.false_eq_true, if_false]
  rw [if_pos hshort]
  exact ⟨rfl, rfl, rfl, rfl⟩

/-- Witness for C1 at the concrete empty-preview note. -/
theorem claim1_insufficient_content_witness :
    (c1Note.hasSummary = false ∧
      (c1Note.contentPreview = "" ∨ (pyStrip c1Note.contentPreview).length < 50)) ∧
    ((processTechnicalNote (fun _ => Except.ok default) c1Note).1.success = false ∧
     (processTechnicalNote (fun _ => Except.ok default) c1Note).1.error =
       some "Conteúdo insuficiente para processamento" ∧
     (processTechnicalNote (fun _ => Except.ok default) c1Note).2.2 = false ∧
     (processTechnicalNote (fun _ => Except.ok default) c1Note).2.1.status
       = NoteStatus.error) :=
  ⟨⟨by decide, Or.inl (by decide)⟩,
    claim1_insufficient_content_amended (fun _ => Except.ok default) c1Note
      (by decide) (Or.inl (by decide))⟩

/-! ### Claim C5 -/

/-- Closed form of the `process_batch` loop: counters advance by the
per-document classification counts and the results list collects one
entry per document in order. -/
theorem processBatchLoop_spec (runNote : TechnicalNote → Except String ProcResult)
    (notes : List TechnicalNote) : ∀ acc : BatchStats,
    processBatchLoop runNote notes acc =
      { total := acc.total
        processed := acc.processed + notes.countP (countsProcessed runNote)
        errors := acc.errors + notes.countP (countsError runNote)
        skipped := acc.skipped + notes.countP (countsSkipped runNote)
        results := acc.results ++ notes.map (batchEntry runNote) } := by
  induction notes with
  | nil => intro acc; simp [processBatchLoop]
  | cons note rest ih =>
      intro acc
      simp only [processBatchLoop]
      cases h : runNote note with
      | ok r =>
          by_cases hs : r.success = true
          · rw [ih]
            simp [countsProcessed, countsError, countsSkipped, batchEntry, h, hs,
              List.countP_cons]
            omega
          · by_cases hsub : containsSub (r.error.getD "") alreadyProcessedFragment = true
            · rw [ih]
              simp [countsProcessed, countsError, countsSkipped, batchEntry, h, hs,
                hsub, List.countP_cons]
              omega
            · rw [ih]
              simp [countsProcessed, countsError, countsSkipped, batchEntry, h, hs,
                hsub, List.countP_cons]
              omega
      | error e =>
          rw [ih]
          simp [countsProcessed, countsError, countsSkipped, batchEntry, h,
            List.countP_cons]
          omega

/-- Every document is counted in exactly one of the three
classification counters. -/
theorem batch_counts_partition (runNote : TechnicalNote → Except String ProcResult) :
    ∀ notes : List TechnicalNote,
    notes.countP (countsProcessed runNote) + notes.countP (countsError runNote) +
      notes.countP (countsSkipped runNote) = notes.length := by
  intro notes
  induction notes with
  | nil => simp
  | cons note rest ih =>
      simp only [List.countP_cons, List.length_cons]
      cases h : runNote note with
      | ok r =>
          by_cases hs : r.success = true
          · simp [countsProcessed, countsError, countsSkipped, h, hs]; omega
          · by_cases hsub :
                containsSub (r.error.getD "") alreadyProcessedFragment = true
            · simp [countsProcessed, countsError, countsSkipped, h, hs, hsub]; omega
            · simp [countsProcessed, countsError, countsSkipped, h, hs, hsub]; omega
      | error e =>
          simp [countsProcessed, countsError, countsSkipped, h]; omega

/-- A pending note with a 60-character preview, processed by a batch
whose LLM invocation fails. -/
def c5Note : TechnicalNote :=
  { id := 7, sourceId := 0, title := "NT", originalUrl := "u", documentHash := "h",
    contentPreview := String.mk (List.replicate 60 'b'),
    status := NoteStatus.pending, hasSummary := false, fileSize := 0 }

/-- The per-document runner of `process_batch`: the real
`process_technical_note` with an LLM whose call fails; the service
catches the exception inside `process()` and returns the
`_handle_error` dict. -/
def c5Runner : TechnicalNote → Except String ProcResult := fun note =>
  Except.ok (processTechnicalNote (fun _ => Except.error "LLM timeout") note).1

/-- C5 counterexample: a batch over one document whose LLM call fails
produces a result entry that is NOT tagged with the document's id:
`process_technical_note` forwards the raw `_handle_error` dict, which
carries no `technical_note_id`. -/
theorem claim5_batch_counterexample :
    (processBatch c5Runner [c5Note]).results.map (fun r => r.technicalNoteId)
        = [none] ∧
    (processBatch c5Runner [c5Note]).errors = 1 ∧
    (processBatch c5Runner [c5Note]).total = 1 := by
  decide

/-- C5 amended: `process_batch` returns `total` equal to the input
length, with `total = processed + errors + skipped`, never raises, and
`results` holds exactly one entry per input document in order; an
outcome whose failure message contains the already-processed message
is counted as skipped and an exception escaping one document's
processing is caught and recorded as an error entry tagged with that
document's id — but an entry produced by a graceful LLM failure is
the raw LLM-error dict and carries no document id. -/
theorem claim5_batch_amended (runNote : TechnicalNote → Except String ProcResult)
    (notes : List TechnicalNote) :
    (processBatch runNote notes).total = notes.length ∧
    (processBatch runNote notes).processed + (processBatch runNote notes).errors +
      (processBatch runNote notes).skipped = notes.length ∧
    (processBatch runNote notes).results = notes.map (batchEntry runNote) ∧
    (processBatch runNote notes).processed
        = notes.countP (countsProcessed runNote) ∧
    (processBatch runNote notes).errors = notes.countP (countsError runNote) ∧
    (processBatch runNote notes).skipped = notes.countP (countsSkipped runNote) := by
  have h := processBatchLoop_spec runNote notes
    { total := notes.length, processed := 0, errors := 0, skipped := 0, results := [] }
  have hpart := batch_counts_partition runNote notes
  simp only [processBatch, h]
  refine ⟨by simp, by simpa using hpart, by simp, by simp, by simp, by simp⟩

/-! ### Claim C7 -/

/-- C7 counterexample: the rate limiter measures from the START of
the previous request, not its end.  Scenario with `delay = 1`: a first
request is issued at clock 5 (recorded `last_request_time = 5`) and
its HTTP exchange ends at clock `29/5 = 5.8`; the next request
arrives at clock `61/10 = 6.1`.  Elapsed since the END of the
previous request is `0.3 < 1`, so the claim demands a sleep of `0.7`
seconds, but the code sleeps `0` because `6.1 - 5 ≥ 1`. -/
theorem claim7_rate_limit_counterexample :
    makeRequestStart 1 0 5 = 5 ∧
    (61 / 10 : ℚ) - 29 / 5 < 1 ∧
    rateLimitSleep 1 (makeRequestStart 1 0 5) (61 / 10) = 0 ∧
    rateLimitSleep 1 (makeRequestStart 1 0 5) (61 / 10)
      ≠ 1 - ((61 / 10 : ℚ) - 29 / 5) := by
  norm_num [makeRequestStart, rateLimit, rateLimitSleep]

/-- C7 amended: the minimum inter-request delay is measured from the
START of the previous request (the instant recorded at the end of the
previous `_rate_limit` call), not from its end: if the elapsed time
since that recorded instant is below `delay`, the limiter sleeps
exactly the remainder, and consecutive request starts are always at
least `delay` apart. -/
theorem claim7_rate_limit_amended (delay last now₁ now₂ : ℚ) :
    delay ≤ makeRequestStart delay (makeRequestStart delay last now₁) now₂
            - makeRequestStart delay last now₁ ∧
    (now₂ - makeRequestStart delay last now₁ < delay →
      rateLimitSleep delay (makeRequestStart delay last now₁) now₂
        = delay - (now₂ - makeRequestStart delay last now₁)) := by
  set s₁ := makeRequestStart delay last now₁ with hs₁
  by_cases h : now₂ - s₁ < delay
  · constructor
    · simp only [makeRequestStart, rateLimit, rateLimitSleep, if_pos h]
      ring_nf
      linarith
    · intro _
      simp only [rateLimitSleep, if_pos h]
  · constructor
    · simp only [makeRequestStart, rateLimit, rateLimitSleep, if_neg h]
      linarith [not_lt.mp h]
    · intro hc
      exact absurd hc h

/-- Witness for C7 with `delay = 1`, `last = 0`, a first call at clock
0 and a second call at clock `3/2`. -/
theorem claim7_rate_limit_witness :
    (1 ≤ makeRequestStart 1 (makeRequestStart 1 0 0) (3 / 2)
        - makeRequestStart 1 0 0) ∧
    ((3 / 2 : ℚ) - makeRequestStart 1 0 0 < 1 ∧
      rateLimitSleep 1 (makeRequestStart 1 0 0) (3 / 2)
        = 1 - ((3 / 2 : ℚ) - makeRequestStart 1 0 0)) :=
  ⟨(claim7_rate_limit_amended 1 0 0 (3 / 2)).1,
   by norm_num [makeRequestStart, rateLimit, rateLimitSleep],
   (claim7_rate_limit_amended 1 0 0 (3 / 2)).2
     (by norm_num [makeRequestStart, rateLimit, rateLimitSleep])⟩

/-! ### Claim C8 -/

/-- C8 counterexample: a run over one candidate whose download raises
persists NO `ProcessingLog` row at all — `_log_operation` is called
with `technical_note=None` and its `if technical_note:` guard skips
the database write (consistently with the foreign key being
non-nullable in `models.py`).  The failure is only counted in
`errors`. -/
theorem claim8_error_log_counterexample :
    (scrapeNewItems (fun _ => "H") (fun _ => Except.error "download failed") 0
        (Except.ok [{ title := "t", url := "u" }]) 0 [] []).map
      (fun acc => (acc.logs, acc.stats.errors)) = Except.ok ([], 1) := by
  rfl

/-- C8 amended: for every per-item failure during `scrape_new_items`,
the errors counter is incremented and the logging helper is invoked
with no document, but — the `ProcessingLog.technical_note` foreign
key being non-nullable and `_log_operation` persisting only when a
note is present — no `ProcessingLogEntry` is written to the audit
trail, and the store is unchanged. -/
theorem claim8_error_log_amended (md5 : ByteContent → String)
    (fetch : ListingItem → Except String (ByteContent × String))
    (dsId : Nat) (acc : ScrapeAcc) (item : ListingItem) (e : String)
    (hfetch : fetch item = Except.error e)
    (hurl : acc.store.any
      (fun n => n.sourceId == dsId && n.originalUrl == item.url) = false) :
    (processItem md5 fetch dsId acc item).logs = acc.logs ∧
    (processItem md5 fetch dsId acc item).stats.errors = acc.stats.errors + 1 ∧
    (processItem md5 fetch dsId acc item).store = acc.store := by
  simp [processItem, hfetch, hurl, logOperation]

/-- Witness for C8 at a concrete failing item over a singleton-free
store. -/
theorem claim8_error_log_witness :
    (processItem (fun _ => "H") (fun _ => Except.error "boom") 0
        { store := [], logs := [],
          stats := { totalFound := 1, newItems := 0, duplicatesSkipped := 0,
                     errors := 0, processingTime := 0 } }
        { title := "t", url := "u" }).logs = [] ∧
    (processItem (fun _ => "H") (fun _ => Except.error "boom") 0
        { store := [], logs := [],
          stats := { totalFound := 1, newItems := 0, duplicatesSkipped := 0,
                     errors := 0, processingTime := 0 } }
        { title := "t", url := "u" }).stats.errors = 0 + 1 ∧
    (processItem (fun _ => "H") (fun _ => Except.error "boom") 0
        { store := [], logs := [],
          stats := { totalFound := 1, newItems := 0, duplicatesSkipped := 0,
                     errors := 0, processingTime := 0 } }
        { title := "t", url := "u" }).store = [] :=
  claim8_error_log_amended (fun _ => "H") (fun _ => Except.error "boom") 0
    { store := [], logs := [],
      stats := { totalFound := 1, newItems := 0, duplicatesSkipped := 0,
                 errors := 0, processingTime := 0 } }
    { title := "t", url := "u" } "boom" rfl rfl

/-! ### Claim C9 -/

/-- C9 counterexample: the effective `health_check_job` (the second
definition in `tasks.py` shadows the first) returns a bare boolean:
on failure it returns `False` with no `success` key, no timestamps
and no error string — two distinct failures produce the identical
output, so the failure reason is silently swallowed. -/
theorem claim9_job_results_counterexample :
    healthCheckJob (Except.error "Cache not working") = false ∧
    healthCheckJob (Except.error "Database error")
      = healthCheckJob (Except.error "Cache not working") := by
  decide

/-- C9 amended: the scrape, processing and full-pipeline jobs return
structured result dicts with a `success` flag and timestamps, where
`success=true` carries a stats payload and `success=false` carries an
error string; the health-check job however returns a bare boolean —
`True` on success and `False` on any failure — with no error string
or timestamps. -/
theorem claim9_job_results_amended
    (active : Bool) (run : Except String ScrapeStats)
    (init : Except String Unit) (pending : List TechnicalNote)
    (runNote : TechnicalNote → Except String ProcResult)
    (scrapeRes : Except String ScrapeJobResult)
    (procRes : Except String ProcessJobResult)
    (t0 t1 : ℚ) (e : String) :
    ((scrapeNfeFazendaJob active run t0 t1).success = false →
        (scrapeNfeFazendaJob active run t0 t1).error ≠ none) ∧
    ((scrapeNfeFazendaJob active run t0 t1).success = true →
        (scrapeNfeFazendaJob active run t0 t1).stats ≠ none) ∧
    (scrapeNfeFazendaJob active run t0 t1).startTime = t0 ∧
    (scrapeNfeFazendaJob active run t0 t1).endTime = t1 ∧
    ((processPendingNotesJob init pending runNote t0 t1).success = false →
        (processPendingNotesJob init pending runNote t0 t1).error ≠ none) ∧
    ((processPendingNotesJob init pending runNote t0 t1).success = true →
        (processPendingNotesJob init pending runNote t0 t1).stats ≠ none) ∧
    (processPendingNotesJob init pending runNote t0 t1).startTime = t0 ∧
    ((fullPipelineJob scrapeRes procRes t0 t1).success = false →
        (fullPipelineJob scrapeRes procRes t0 t1).error ≠ none) ∧
    healthCheckJob (Except.error e) = false ∧
    healthCheckJob (Except.ok ()) = true := by
  refine ⟨?_, ?_, ?_, ?_, ?_, ?_, ?_, ?_, rfl, rfl⟩
  · cases active <;> cases run <;> simp [scrapeNfeFazendaJob]
  · cases active <;> cases run <;> simp [scrapeNfeFazendaJob]
  · cases active <;> cases run <;> simp [scrapeNfeFazendaJob]
  · cases active <;> cases run <;> simp [scrapeNfeFazendaJob]
  · cases init <;> cases pending <;> simp [processPendingNotesJob]
  · cases init <;> cases pending <;> simp [processPendingNotesJob]
  · cases init <;> cases pending <;> simp [processPendingNotesJob]
  · cases scrapeRes with
    | error e' => simp [fullPipelineJob]
    | ok sr =>
        by_cases hs : sr.success = true
        · cases procRes <;> simp [fullPipelineJob, hs]
        · simp [fullPipelineJob, hs]

/-! ### Claim C10 -/

/-- A scrape-stage result dict reporting failure without raising
(the inactive-data-source outcome of `scrape_nfe_fazenda_job`). -/
def c10ScrapeFail : ScrapeJobResult :=
  { success := false, stats := none, error := some "Fonte de dados inativa",
    startTime := 0, endTime := 0 }

/-- C10: when the scrape stage of the full pipeline returns
`success=false` without raising, the processing stage is never
invoked, `pipeline_stats["processing"]` is the literal
`{"success": False, "error": "Scraping falhou"}` dict, and the job's
top-level `success` is still `true`; top-level `success` is `false`
exactly when a stage invocation raises. -/
theorem claim10_pipeline_skip (sr : ScrapeJobResult)
    (procRes procRes' : Except String ProcessJobResult)
    (scrapeRes : Except String ScrapeJobResult)
    (procRes₀ : Except String ProcessJobResult) (t0 t1 : ℚ)
    (hfail : sr.success = false) :
    (fullPipelineJob (Except.ok sr) procRes t0 t1).processing
        = ProcessingSlot.skipped false "Scraping falhou" ∧
    (fullPipelineJob (Except.ok sr) procRes t0 t1).success = true ∧
    fullPipelineJob (Except.ok sr) procRes t0 t1
        = fullPipelineJob (Except.ok sr) procRes' t0 t1 ∧
    ((fullPipelineJob scrapeRes procRes₀ t0 t1).success = false ↔
      ((∃ e, scrapeRes = Except.error e) ∨
       (∃ sr' e, scrapeRes = Except.ok sr' ∧ sr'.success = true ∧
          procRes₀ = Except.error e))) := by
  refine ⟨by simp [fullPipelineJob, hfail], by simp [fullPipelineJob, hfail],
    by simp [fullPipelineJob, hfail], ?_⟩
  cases scrapeRes with
  | error e' => simp [fullPipelineJob]
  | ok sr' =>
      by_cases hs : sr'.success = true
      · cases procRes₀ <;> simp [fullPipelineJob, hs]
      · have hs' : sr'.success = false := by simpa using hs
        simp [fullPipelineJob, hs']

/-- Witness for C10 at the inactive-data-source scrape failure. -/
theorem claim10_pipeline_skip_witness :
    (fullPipelineJob (Except.ok c10ScrapeFail) (Except.ok default) 0 1).processing
        = ProcessingSlot.skipped false "Scraping falhou" ∧
    (fullPipelineJob (Except.ok c10ScrapeFail) (Except.ok default) 0 1).success
        = true ∧
    fullPipelineJob (Except.ok c10ScrapeFail) (Except.ok default) 0 1
        = fullPipelineJob (Except.ok c10ScrapeFail) (Except.error "boom") 0 1 ∧
    ((fullPipelineJob (Except.error "listing down") (Except.ok default) 0 1).success
        = false ↔
      ((∃ e, (Except.error "listing down" : Except String ScrapeJobResult)
          = Except.error e) ∨
       (∃ sr' e, (Except.error "listing down" : Except String ScrapeJobResult)
            = Except.ok sr' ∧ sr'.success = true ∧
          (Except.ok default : Except String ProcessJobResult)
            = Except.error e))) :=
  claim10_pipeline_skip c10ScrapeFail (Except.ok default) (Except.error "boom")
    (Except.error "listing down") (Except.ok default) 0 1 rfl

/-! ### Scraper loop lemmas (shared by C2, C3, C4, C6) -/

/-- Each loop iteration increments exactly one of the three item
counters and leaves `total_found` and `processing_time` untouched. -/
theorem processItem_stats_step (md5 : ByteContent → String)
    (fetch : ListingItem → Except String (ByteContent × String))
    (dsId : Nat) (acc : ScrapeAcc) (item : ListingItem) :
    ((processItem md5 fetch dsId acc item).stats.newItems +
      (processItem md5 fetch dsId acc item).stats.duplicatesSkipped +
      (processItem md5 fetch dsId acc item).stats.errors)
      = (acc.stats.newItems + acc.stats.duplicatesSkipped + acc.stats.errors) + 1 ∧
    (processItem md5 fetch dsId acc item).stats.totalFound
      = acc.stats.totalFound ∧
    (processItem md5 fetch dsId acc item).stats.processingTime
      = acc.stats.processingTime := by
  unfold processItem
  by_cases h1 : acc.store.any
      (fun n => n.sourceId == dsId && n.originalUrl == item.url) = true
  · simp [h1]
    omega
  · cases hf : fetch item with
    | error e =>
        simp [h1, hf]
        omega
    | ok cp =>
        obtain ⟨content, preview⟩ := cp
        by_cases h2 : acc.store.any (fun n => n.documentHash == md5 content) = true
        · simp [h1, hf, h2]
          omega
        · simp [h1, hf, h2]
          omega

/-- Each loop iteration either leaves the store unchanged (without
touching `new_items`), or — only when the URL pre-check and the
hash check both found nothing — appends the freshly created note and
increments `new_items`. -/
theorem processItem_store_cases (md5 : ByteContent → String)
    (fetch : ListingItem → Except String (ByteContent × String))
    (dsId : Nat) (acc : ScrapeAcc) (item : ListingItem) :
    ((processItem md5 fetch dsId acc item).store = acc.store ∧
     (processItem md5 fetch dsId acc item).stats.newItems
       = acc.stats.newItems) ∨
    (∃ content preview,
      fetch item = Except.ok (content, preview) ∧
      acc.store.any
        (fun n => n.sourceId == dsId && n.originalUrl == item.url) = false ∧
      acc.store.any (fun n => n.documentHash == md5 content) = false ∧
      (processItem md5 fetch dsId acc item).store
        = acc.store ++
          [createTechnicalNote dsId item (md5 content) content preview acc.store] ∧
      (processItem md5 fetch dsId acc item).stats.newItems
        = acc.stats.newItems + 1) := by
  unfold processItem
  by_cases h1 : acc.store.any
      (fun n => n.sourceId == dsId && n.originalUrl == item.url) = true
  · left; simp [h1]
  · cases hf : fetch item with
    | error e => left; simp [h1, hf]
    | ok cp =>
        obtain ⟨content, preview⟩ := cp
        by_cases h2 : acc.store.any (fun n => n.documentHash == md5 content) = true
        · left; simp [h1, hf, h2]
        · right
          refine ⟨content, preview, rfl, by simpa using h1, by simpa using h2, ?_, ?_⟩
          · simp [h1, hf, h2]
          · simp [h1, hf, h2]

/-- Membership in the store is preserved by one loop iteration. -/
theorem processItem_mem_store (md5 : ByteContent → String)
    (fetch : ListingItem → Except String (ByteContent × String))
    (dsId : Nat) (acc : ScrapeAcc) (item : ListingItem) (n : TechnicalNote)
    (h : n ∈ acc.store) : n ∈ (processItem md5 fetch dsId acc item).store := by
  rcases processItem_store_cases md5 fetch dsId acc item with ⟨hst, _⟩ |
    ⟨c, p, _, _, _, hst, _⟩
  · rw [hst]; exact h
  · rw [hst]; exact List.mem_append_left _ h

/-- Membership in the store is preserved by the whole loop. -/
theorem scrapeLoop_mem_store (md5 : ByteContent → String)
    (fetch : ListingItem → Except String (ByteContent × String)) (dsId : Nat) :
    ∀ (items : List ListingItem) (acc : ScrapeAcc) (n : TechnicalNote),
      n ∈ acc.store → n ∈ (scrapeLoop md5 fetch dsId items acc).store
  | [], _, _, h => h
  | item :: rest, acc, n, h =>
      scrapeLoop_mem_store md5 fetch dsId rest _ n
        (processItem_mem_store md5 fetch dsId acc item n h)

/-- The loop adds exactly one counted outcome per item and preserves
`total_found` and `processing_time`. -/
theorem scrapeLoop_stats_sum (md5 : ByteContent → String)
    (fetch : ListingItem → Except String (ByteContent × String)) (dsId : Nat) :
    ∀ (items : List ListingItem) (acc : ScrapeAcc),
      ((scrapeLoop md5 fetch dsId items acc).stats.newItems +
        (scrapeLoop md5 fetch dsId items acc).stats.duplicatesSkipped +
        (scrapeLoop md5 fetch dsId items acc).stats.errors)
        = (acc.stats.newItems + acc.stats.duplicatesSkipped + acc.stats.errors)
          + items.length ∧
      (scrapeLoop md5 fetch dsId items acc).stats.totalFound
        = acc.stats.totalFound ∧
      (scrapeLoop md5 fetch dsId items acc).stats.processingTime
        = acc.stats.processingTime
  | [], acc => ⟨rfl, rfl, rfl⟩
  | item :: rest, acc => by
      have hstep := processItem_stats_step md5 fetch dsId acc item
      have hrest := scrapeLoop_stats_sum md5 fetch dsId rest
        (processItem md5 fetch dsId acc item)
      simp only [scrapeLoop]
      refine ⟨?_, ?_, ?_⟩
      · rw [hrest.1, hstep.1]
        simp [List.length_cons]
        omega
      · rw [hrest.2.1, hstep.2.1]
      · rw [hrest.2.2, hstep.2.2]

/-- `new_items` grows by at most one per item. -/
theorem scrapeLoop_newItems_le (md5 : ByteContent → String)
    (fetch : ListingItem → Except String (ByteContent × String)) (dsId : Nat) :
    ∀ (items : List ListingItem) (acc : ScrapeAcc),
      (scrapeLoop md5 fetch dsId items acc).stats.newItems
        ≤ acc.stats.newItems + items.length
  | [], acc => Nat.le_refl _
  | item :: rest, acc => by
      have hrest := scrapeLoop_newItems_le md5 fetch dsId rest
        (processItem md5 fetch dsId acc item)
      have hstep : (processItem md5 fetch dsId acc item).stats.newItems
          ≤ acc.stats.newItems + 1 := by
        rcases processItem_store_cases md5 fetch dsId acc item with ⟨_, hn⟩ |
          ⟨c, p, _, _, _, _, hn⟩ <;> omega
      calc (scrapeLoop md5 fetch dsId (item :: rest) acc).stats.newItems
          ≤ (processItem md5 fetch dsId acc item).stats.newItems + rest.length :=
            hrest
        _ ≤ acc.stats.newItems + (item :: rest).length := by
            simp [List.length_cons]; omega

/-- One loop iteration preserves pairwise distinctness of the stored
content hashes: the insert branch is guarded by the hash lookup. -/
theorem processItem_pairwise (md5 : ByteContent → String)
    (fetch : ListingItem → Except String (ByteContent × String))
    (dsId : Nat) (acc : ScrapeAcc) (item : ListingItem)
    (h : acc.store.Pairwise (fun a b => a.documentHash ≠ b.documentHash)) :
    (processItem md5 fetch dsId acc item).store.Pairwise
      (fun a b => a.documentHash ≠ b.documentHash) := by
  rcases processItem_store_cases md5 fetch dsId acc item with ⟨hst, _⟩ |
    ⟨content, preview, _, _, hhash, hst, _⟩
  · rw [hst]; exact h
  · rw [hst]
    refine List.pairwise_append.mpr ⟨h, List.pairwise_singleton _ _, ?_⟩
    intro a ha b hb
    rw [List.mem_singleton] at hb
    subst hb
    simp only [List.any_eq_false, Bool.not_eq_true, beq_eq_false_iff_ne,
      ne_eq] at hhash
    simpa [createTechnicalNote] using hhash a ha

/-- The whole loop preserves pairwise distinctness of content
hashes. -/
theorem scrapeLoop_pairwise (md5 : ByteContent → String)
    (fetch : ListingItem → Except String (ByteContent × String)) (dsId : Nat) :
    ∀ (items : List ListingItem) (acc : ScrapeAcc),
      acc.store.Pairwise (fun a b => a.documentHash ≠ b.documentHash) →
      (scrapeLoop md5 fetch dsId items acc).store.Pairwise
        (fun a b => a.documentHash ≠ b.documentHash)
  | [], _, h => h
  | item :: rest, acc, h =>
      scrapeLoop_pairwise md5 fetch dsId rest _
        (processItem_pairwise md5 fetch dsId acc item h)

/-! ### Claim C2 -/

/-- C2: content-hash uniqueness.  First conjunct: a scraping run over
a store whose hashes are pairwise distinct (the database enforces
`unique=True` on `document_hash`) leaves them pairwise distinct.
Second conjunct: an item whose downloaded content hashes to a value
already in the store is rejected before any insertion — the store is
unchanged, `duplicates_skipped` is incremented and `new_items` is
not. -/
theorem claim2_hash_uniqueness (md5 : ByteContent → String)
    (fetch : ListingItem → Except String (ByteContent × String))
    (dsId : Nat) (items : List ListingItem) (elapsed : ℚ)
    (store : Store) (logs : List LogEntry) (acc accI : ScrapeAcc)
    (item : ListingItem) (content : ByteContent) (preview : String)
    (hdist : store.Pairwise (fun a b => a.documentHash ≠ b.documentHash)) :
    (scrapeNewItems md5 fetch dsId (Except.ok items) elapsed store logs
        = Except.ok acc →
      acc.store.Pairwise (fun a b => a.documentHash ≠ b.documentHash)) ∧
    (fetch item = Except.ok (content, preview) →
      accI.store.any
        (fun n => n.sourceId == dsId && n.originalUrl == item.url) = false →
      accI.store.any (fun n => n.documentHash == md5 content) = true →
      (processItem md5 fetch dsId accI item).store = accI.store ∧
      (processItem md5 fetch dsId accI item).stats.duplicatesSkipped
        = accI.stats.duplicatesSkipped + 1 ∧
      (processItem md5 fetch dsId accI item).stats.newItems
        = accI.stats.newItems) := by
  constructor
  · intro hrun
    simp only [scrapeNewItems] at hrun
    injection hrun with hrun
    rw [← hrun]
    exact scrapeLoop_pairwise md5 fetch dsId items _ hdist
  · intro hf hurl hhash
    simp [processItem, hurl, hf, hhash]

/-- A stored note used by the C2 witness. -/
def c2Note : TechnicalNote :=
  { id := 0, sourceId := 0, title := "old", originalUrl := "u0",
    documentHash := "H", contentPreview := "", status := NoteStatus.pending,
    hasSummary := false, fileSize := 0 }

/-- Witness for C2: one stored note with hash `"H"`, a constant-`"H"`
digest and a candidate under a fresh URL. -/
theorem claim2_hash_uniqueness_witness :
    [c2Note].Pairwise (fun a b => a.documentHash ≠ b.documentHash) ∧
    ((scrapeNewItems (fun _ => "H") (fun _ => Except.ok (([1] : ByteContent), "p"))
        0 (Except.ok [{ title := "t", url := "u1" }]) 0 [c2Note] []
        = Except.ok ((scrapeNewItems (fun _ => "H")
            (fun _ => Except.ok (([1] : ByteContent), "p")) 0
            (Except.ok [{ title := "t", url := "u1" }]) 0 [c2Note] []).toOption.getD
              default) →
      ((scrapeNewItems (fun _ => "H") (fun _ => Except.ok (([1] : ByteContent), "p"))
          0 (Except.ok [{ title := "t", url := "u1" }]) 0 [c2Note] []).toOption.getD
            default).store.Pairwise
        (fun a b => a.documentHash ≠ b.documentHash)) ∧
    (((fun (_ : ListingItem) => Except.ok (([1] : ByteContent), "p"))
          { title := "t", url := "u1" } :
        Except String (ByteContent × String)) = Except.ok (([1] : ByteContent), "p") →
      ([c2Note] : Store).any
        (fun n => n.sourceId == 0 && n.originalUrl == ListingItem.url
          { title := "t", url := "u1" }) = false →
      ([c2Note] : Store).any (fun n => n.documentHash == "H") = true →
      (processItem (fun _ => "H") (fun _ => Except.ok (([1] : ByteContent), "p")) 0
        { store := [c2Note], logs := [],
          stats := { totalFound := 1, newItems := 0, duplicatesSkipped := 0,
                     errors := 0, processingTime := 0 } }
        { title := "t", url := "u1" }).store = [c2Note] ∧
      (processItem (fun _ => "H") (fun _ => Except.ok (([1] : ByteContent), "p")) 0
        { store := [c2Note], logs := [],
          stats := { totalFound := 1, newItems := 0, duplicatesSkipped := 0,
                     errors := 0, processingTime := 0 } }
        { title := "t", url := "u1" }).stats.duplicatesSkipped = 0 + 1 ∧
      (processItem (fun _ => "H") (fun _ => Except.ok (([1] : ByteContent), "p")) 0
        { store := [c2Note], logs := [],
          stats := { totalFound := 1, newItems := 0, duplicatesSkipped := 0,
                     errors := 0, processingTime := 0 } }
        { title := "t", url := "u1" }).stats.newItems = 0)) :=
  ⟨by simp,
   claim2_hash_uniqueness (fun _ => "H")
     (fun _ => Except.ok (([1] : ByteContent), "p")) 0
     [{ title := "t", url := "u1" }] 0 [c2Note] []
     ((scrapeNewItems (fun _ => "H") (fun _ => Except.ok (([1] : ByteContent), "p"))
        0 (Except.ok [{ title := "t", url := "u1" }]) 0 [c2Note] []).toOption.getD
          default)
     { store := [c2Note], logs := [],
       stats := { totalFound := 1, newItems := 0, duplicatesSkipped := 0,
                  errors := 0, processingTime := 0 } }
     { title := "t", url := "u1" } [1] "p" (by simp)⟩

/-! ### Claim C3 -/

/-- C3: failure isolation of `scrape_new_items`.  A listing failure
propagates to the caller; for any per-item fetch behaviour the run
over an extracted listing returns its statistics, with `total_found`
the number of candidates, every candidate accounted for by exactly
one counter, and the elapsed time recorded; and one item whose fetch
raises only increments `errors`, leaving the store unchanged, after
which the loop continues with the next item. -/
theorem claim3_error_isolation (md5 : ByteContent → String)
    (fetch : ListingItem → Except String (ByteContent × String))
    (dsId : Nat) (elapsed : ℚ) (store : Store) (logs : List LogEntry)
    (e : String) (items : List ListingItem) (accI : ScrapeAcc)
    (item : ListingItem) (eI : String) :
    scrapeNewItems md5 fetch dsId (Except.error e) elapsed store logs
        = Except.error e ∧
    (∃ acc, scrapeNewItems md5 fetch dsId (Except.ok items) elapsed store logs
        = Except.ok acc ∧
      acc.stats.totalFound = items.length ∧
      acc.stats.newItems + acc.stats.duplicatesSkipped + acc.stats.errors
        = items.length ∧
      acc.stats.processingTime = elapsed) ∧
    (fetch item = Except.error eI →
      accI.store.any
        (fun n => n.sourceId == dsId && n.originalUrl == item.url) = false →
      (processItem md5 fetch dsId accI item).stats.errors
        = accI.stats.errors + 1 ∧
      (processItem md5 fetch dsId accI item).store = accI.store ∧
      (∀ rest, scrapeLoop md5 fetch dsId (item :: rest) accI
        = scrapeLoop md5 fetch dsId rest (processItem md5 fetch dsId accI item))) := by
  refine ⟨rfl, ?_, ?_⟩
  · have hsum := scrapeLoop_stats_sum md5 fetch dsId items
      { store := store, logs := logs,
        stats := { totalFound := items.length, newItems := 0,
                   duplicatesSkipped := 0, errors := 0, processingTime := 0 } }
    exact ⟨_, rfl, by simpa using hsum.2.1, by simpa using hsum.1, rfl⟩
  · intro hf hurl
    refine ⟨?_, ?_, fun rest => rfl⟩
    · simp [processItem, hurl, hf]
    · simp [processItem, hurl, hf]

/-! ### Claim C4 -/

/-- When every candidate's `(source, url)` pair is already stored,
the loop skips them all through the URL pre-check, incrementing only
`duplicates_skipped` and never downloading. -/
theorem scrapeLoop_url_skip (md5 : ByteContent → String)
    (fetch : ListingItem → Except String (ByteContent × String)) (dsId : Nat) :
    ∀ (items : List ListingItem) (acc : ScrapeAcc),
      (∀ item ∈ items, ∃ n ∈ acc.store,
        n.sourceId = dsId ∧ n.originalUrl = item.url) →
      scrapeLoop md5 fetch dsId items acc =
        { acc with stats := { acc.stats with
            duplicatesSkipped := acc.stats.duplicatesSkipped + items.length } }
  | [], acc, _ => rfl
  | item :: rest, acc, h => by
      obtain ⟨n, hn, hsrc, hurl⟩ := h item (List.mem_cons_self item rest)
      have hany : acc.store.any
          (fun n => n.sourceId == dsId && n.originalUrl == item.url) = true := by
        rw [List.any_eq_true]
        exact ⟨n, hn, by simp [hsrc, hurl]⟩
      have hstep : processItem md5 fetch dsId acc item =
          { acc with stats := { acc.stats with
              duplicatesSkipped := acc.stats.duplicatesSkipped + 1 } } := by
        simp [processItem, hany]
      have hrest := scrapeLoop_url_skip md5 fetch dsId rest
        { acc with stats := { acc.stats with
            duplicatesSkipped := acc.stats.duplicatesSkipped + 1 } }
        (fun it hit => h it (List.mem_cons_of_mem item hit))
      show scrapeLoop md5 fetch dsId rest (processItem md5 fetch dsId acc item) = _
      rw [hstep, hrest]
      simp only [ScrapeAcc.mk.injEq, ScrapeStats.mk.injEq, List.length_cons,
        and_true, true_and]
      omega

/-- When the loop inserted one note per candidate, every candidate's
`(source, url)` pair is present in the final store. -/
theorem scrapeLoop_insert_all (md5 : ByteContent → String)
    (fetch : ListingItem → Except String (ByteContent × String)) (dsId : Nat) :
    ∀ (items : List ListingItem) (acc : ScrapeAcc),
      (scrapeLoop md5 fetch dsId items acc).stats.newItems
        = acc.stats.newItems + items.length →
      ∀ item ∈ items, ∃ n ∈ (scrapeLoop md5 fetch dsId items acc).store,
        n.sourceId = dsId ∧ n.originalUrl = item.url
  | [], _, _, _, hmem => absurd hmem (List.not_mem_nil _)
  | item :: rest, acc, hfull, it, hmem => by
      set acc' := processItem md5 fetch dsId acc item with hacc'
      have hloop : scrapeLoop md5 fetch dsId (item :: rest) acc
          = scrapeLoop md5 fetch dsId rest acc' := rfl
      have hle := scrapeLoop_newItems_le md5 fetch dsId rest acc'
      have hinsert : acc'.stats.newItems = acc.stats.newItems + 1 ∧
          ∃ content preview, acc'.store = acc.store ++
            [createTechnicalNote dsId item (md5 content) content preview acc.store] := by
        rcases processItem_store_cases md5 fetch dsId acc item with ⟨_, hn⟩ |
          ⟨content, preview, _, _, _, hst, hn⟩
        · exfalso
          rw [hloop] at hfull
          rw [hfull] at hle
          rw [hn] at hle
          simp only [List.length_cons] at hle
          omega
        · exact ⟨hn, content, preview, hst⟩
      rcases List.mem_cons.mp hmem with rfl | hmem'
      · obtain ⟨_, content, preview, hst⟩ := hinsert
        refine ⟨createTechnicalNote dsId it (md5 content) content preview acc.store,
          ?_, rfl, rfl⟩
        rw [hloop]
        apply scrapeLoop_mem_store
        rw [hst]
        exact List.mem_append_right _ (List.mem_singleton_self _)
      · have hfull' : (scrapeLoop md5 fetch dsId rest acc').stats.newItems
            = acc'.stats.newItems + rest.length := by
          rw [hloop] at hfull
          rw [hinsert.1]
          rw [hfull]
          simp [List.length_cons]
          omega
        obtain ⟨n, hn, hp⟩ := scrapeLoop_insert_all md5 fetch dsId rest acc'
          hfull' it hmem'
        exact ⟨n, by rw [hloop]; exact hn, hp⟩

/-- C4: idempotence against an unchanged listing.  If a first run
persisted every found item, a second run over the same candidate list
— with any per-item fetch behaviour, since no download happens —
returns `new_items = 0` and `duplicates_skipped = total_found`, with
no errors and an unchanged store: every candidate is caught by the
URL pre-check. -/
theorem claim4_idempotence (md5 : ByteContent → String)
    (fetch fetch2 : ListingItem → Except String (ByteContent × String))
    (dsId : Nat) (items : List ListingItem) (e1 e2 : ℚ)
    (store : Store) (logs : List LogEntry) (acc1 : ScrapeAcc)
    (hrun1 : scrapeNewItems md5 fetch dsId (Except.ok items) e1 store logs
      = Except.ok acc1)
    (hall : acc1.stats.newItems = acc1.stats.totalFound) :
    ∃ acc2, scrapeNewItems md5 fetch2 dsId (Except.ok items) e2
        acc1.store acc1.logs = Except.ok acc2 ∧
      acc2.stats.newItems = 0 ∧
      acc2.stats.duplicatesSkipped = acc2.stats.totalFound ∧
      acc2.stats.totalFound = items.length ∧
      acc2.stats.errors = 0 ∧
      acc2.store = acc1.store := by
  simp only [scrapeNewItems] at hrun1
  injection hrun1 with hrun1
  set acc0 : ScrapeAcc :=
    { store := store, logs := logs,
      stats := { totalFound := items.length, newItems := 0,
                 duplicatesSkipped := 0, errors := 0, processingTime := 0 } } with hacc0
  have hstore1 : acc1.store = (scrapeLoop md5 fetch dsId items acc0).store := by
    rw [← hrun1]
  have hnew1 : acc1.stats.newItems
      = (scrapeLoop md5 fetch dsId items acc0).stats.newItems := by
    rw [← hrun1]
  have htot1 : acc1.stats.totalFound
      = (scrapeLoop md5 fetch dsId items acc0).stats.totalFound := by
    rw [← hrun1]
  have htot : (scrapeLoop md5 fetch dsId items acc0).stats.totalFound
      = items.length := by
    have := (scrapeLoop_stats_sum md5 fetch dsId items acc0).2.1
    simpa using this
  have hfull : (scrapeLoop md5 fetch dsId items acc0).stats.newItems
      = acc0.stats.newItems + items.length := by
    have h0 : acc0.stats.newItems = 0 := rfl
    rw [h0, Nat.zero_add, ← hnew1, hall, htot1, htot]
  have hcover := scrapeLoop_insert_all md5 fetch dsId items acc0 hfull
  have hcover' : ∀ item ∈ items, ∃ n ∈ acc1.store,
      n.sourceId = dsId ∧ n.originalUrl = item.url := by
    intro item hit
    rw [hstore1]
    exact hcover item hit
  have hskip := scrapeLoop_url_skip md5 fetch2 dsId items
    { store := acc1.store, logs := acc1.logs,
      stats := { totalFound := items.length, newItems := 0,
                 duplicatesSkipped := 0, errors := 0, processingTime := 0 } }
    (fun item hit => hcover' item hit)
  refine ⟨_, rfl, ?_⟩
  simp only [scrapeNewItems, hskip]
  simp

/-- Digest used by the C4 witness. -/
def c4Md5 : ByteContent → String := fun _ => "H"

/-- Per-item fetch used by the C4 witness. -/
def c4Fetch : ListingItem → Except String (ByteContent × String) :=
  fun _ => Except.ok (([7] : ByteContent), "prev")

/-- Candidate item used by the C4 witness. -/
def c4Item : ListingItem := { title := "t", url := "u" }

/-- State after the first C4 witness run. -/
def c4Acc1 : ScrapeAcc :=
  (scrapeNewItems c4Md5 c4Fetch 0 (Except.ok [c4Item]) 0 [] []).toOption.getD default

/-- Witness for C4: a first run over one fresh item persists it; the
second run over the same listing skips it as a URL duplicate. -/
theorem claim4_idempotence_witness :
    (scrapeNewItems c4Md5 c4Fetch 0 (Except.ok [c4Item]) 0 [] []
        = Except.ok c4Acc1 ∧
      c4Acc1.stats.newItems = c4Acc1.stats.totalFound) ∧
    (∃ acc2, scrapeNewItems c4Md5 c4Fetch 0 (Except.ok [c4Item]) 0
        c4Acc1.store c4Acc1.logs = Except.ok acc2 ∧
      acc2.stats.newItems = 0 ∧
      acc2.stats.duplicatesSkipped = acc2.stats.totalFound ∧
      acc2.stats.totalFound = [c4Item].length ∧
      acc2.stats.errors = 0 ∧
      acc2.store = c4Acc1.store) :=
  ⟨⟨rfl, rfl⟩,
   claim4_idempotence c4Md5 c4Fetch c4Fetch 0 [c4Item] 0 0 [] [] c4Acc1 rfl rfl⟩

/-! ### Claim C6 -/

/-- The newline-collapsing pass is the identity on text with no
whitespace at all. -/
theorem collapseNewlines_of_no_space (l : List Char)
    (h : ∀ c ∈ l, pyIsSpace c = false) : collapseNewlines l = l := by
  induction l with
  | nil => rfl
  | cons c rest ih =>
      have hc : pyIsSpace c = false := h c (List.mem_cons_self _ _)
      have ih' := ih (fun x hx => h x (List.mem_cons_of_mem _ hx))
      simp only [collapseNewlines, collapseNewlinesAux, hc, Bool.false_eq_true,
        if_false, List.reverse_nil] at ih' ⊢
      simp only [transformWsRun, List.count_nil, List.takeWhile_nil,
        List.reverse_nil]
      simp only [show (3 ≤ (0 : Nat)) = False by simp, if_false,
        List.nil_append, List.cons.injEq, true_and]
      exact ih'

/-- The space-collapsing pass is the identity on text with no space
characters. -/
theorem collapseSpaces_of_no_space :
    ∀ (l : List Char), (∀ c ∈ l, c ≠ ' ') → collapseSpaces l = l
  | [], _ => rfl
  | [_], _ => rfl
  | a :: b :: rest, h => by
      have ha : ¬(a = ' ' ∧ b = ' ') := fun hab =>
        h a (List.mem_cons_self _ _) hab.1
      rw [collapseSpaces, if_neg ha,
        collapseSpaces_of_no_space (b :: rest)
          (fun c hc => h c (List.mem_cons_of_mem _ hc))]

/-- `str.strip()` is the identity on a list whose two ends are not
whitespace. -/
theorem pyStripList_eq_of_ends (l : List Char)
    (h1 : l.dropWhile pyIsSpace = l)
    (h2 : l.reverse.dropWhile pyIsSpace = l.reverse) :
    pyStripList l = l := by
  unfold pyStripList
  rw [h1, h2, List.reverse_reverse]

/-- C6: the two truncation points compose.  For extracted text of
length 3000 with no collapsible whitespace and no stripped control
characters, `_clean_extracted_text` hard-truncates to the first 2000
characters plus the truncation marker, and persisting the document
through the pipeline stores a `content_preview` of exactly 1000
characters (the `preview[:1000]` pipeline cap, not the 2000-character
extraction cap). -/
theorem claim6_preview_truncation (l : List Char) (md5 : ByteContent → String)
    (content : ByteContent) (item : ListingItem) (dsId : Nat)
    (hchars : ∀ c ∈ l, pyIsSpace c = false ∧ isStrippedCtrl c = false)
    (hlen : l.length = 3000) :
    (cleanExtractedText (String.mk l)).length = 2000 + truncMarker.length ∧
    (cleanExtractedText (String.mk l)).toList
      = l.take 2000 ++ truncMarker.toList ∧
    (∃ acc n, scrapeNewItems md5
        (fun _ => Except.ok (content, cleanExtractedText (String.mk l))) dsId
        (Except.ok [item]) 0 [] [] = Except.ok acc ∧
      acc.store = [n] ∧ n.contentPreview.length = 1000) := by
  have hne : ¬((String.mk l : String) = "") := by
    intro hcon
    have : l = [] := by
      have := congrArg String.toList hcon
      simpa using this
    rw [this] at hlen
    simp at hlen
  have hnil : l ≠ [] := by
    intro hcon; rw [hcon] at hlen; simp at hlen
  obtain ⟨c0, rest0, rfl⟩ := List.exists_cons_of_ne_nil hnil
  have e1 : collapseNewlines (c0 :: rest0) = c0 :: rest0 :=
    collapseNewlines_of_no_space _ (fun c hc => (hchars c hc).1)
  have e2 : collapseSpaces (c0 :: rest0) = c0 :: rest0 :=
    collapseSpaces_of_no_space _ (fun c hc hsp => by
      have hc' := (hchars c hc).1
      rw [hsp] at hc'
      simp [pyIsSpace] at hc')
  have e3 : (c0 :: rest0).filter (fun c => !isStrippedCtrl c) = c0 :: rest0 :=
    List.filter_eq_self.mpr (fun c hc => by simp [(hchars c hc).2])
  have hhead : (c0 :: rest0).take 2000 = c0 :: rest0.take 1999 := by
    rw [show (2000 : Nat) = 1999 + 1 from rfl, List.take_succ_cons]
  have hstrip : pyStripList (c0 :: (rest0.take 1999 ++ truncMarker.toList))
      = c0 :: (rest0.take 1999 ++ truncMarker.toList) := by
    apply pyStripList_eq_of_ends
    · rw [List.dropWhile_cons]
      have hc0 : pyIsSpace c0 = false := (hchars c0 (List.mem_cons_self _ _)).1
      simp [hc0]
    · have hrev : (c0 :: (rest0.take 1999 ++ truncMarker.toList)).reverse
          = truncMarker.toList.reverse ++ ((rest0.take 1999).reverse ++ [c0]) := by
        rw [List.reverse_cons, List.reverse_append, List.append_assoc]
      have hM : truncMarker.toList.reverse
          = ']' :: truncMarker.toList.reverse.tail := by decide
      rw [hrev, hM, List.cons_append, List.dropWhile_cons]
      have hbr : pyIsSpace ']' = false := by decide
      simp [hbr]
  have hclean : (cleanExtractedText (String.mk (c0 :: rest0))).toList
      = (c0 :: rest0).take 2000 ++ truncMarker.toList := by
    unfold cleanExtractedText
    rw [if_neg hne]
    have ht : (String.mk (c0 :: rest0)).toList = c0 :: rest0 := rfl
    simp only [ht, e1, e2, e3, hlen]
    rw [if_pos (by norm_num)]
    rw [hhead, List.cons_append, hstrip]
    rfl
  have hlentake : ((c0 :: rest0).take 2000).length = 2000 := by
    rw [List.length_take, hlen]
    omega
  have hmk : truncMarker.toList.length = 20 := rfl
  refine ⟨?_, hclean, ?_⟩
  · show (cleanExtractedText (String.mk (c0 :: rest0))).toList.length = _
    rw [hclean, List.length_append, hlentake, hmk]
    rfl
  · refine ⟨_, createTechnicalNote dsId item (md5 content) content
      (cleanExtractedText (String.mk (c0 :: rest0))) [], rfl, rfl, ?_⟩
    show ((cleanExtractedText (String.mk (c0 :: rest0))).toList.take 1000).length
        = 1000
    rw [List.length_take, hclean, List.length_append, hlentake, hmk]
    omega

/-- Witness for C6 at 3000 letters `a`. -/
theorem claim6_preview_truncation_witness :
    (cleanExtractedText (String.mk (List.replicate 3000 'a'))).length
        = 2000 + truncMarker.length ∧
    (cleanExtractedText (String.mk (List.replicate 3000 'a'))).toList
        = (List.replicate 3000 'a').take 2000 ++ truncMarker.toList ∧
    (∃ acc n, scrapeNewItems (fun _ => "H")
        (fun _ => Except.ok (([] : ByteContent),
          cleanExtractedText (String.mk (List.replicate 3000 'a')))) 0
        (Except.ok [{ title := "t", url := "u" }]) 0 [] [] = Except.ok acc ∧
      acc.store = [n] ∧ n.contentPreview.length = 1000) :=
  claim6_preview_truncation (List.replicate 3000 'a') (fun _ => "H") []
    { title := "t", url := "u" } 0
    (fun c hc => by
      have hca : c = 'a' := List.eq_of_mem_replicate hc
      subst hca
      exact ⟨by decide, by decide⟩)
    (by rw [List.length_replicate])

end FeedScraper
